import Mathlib

/-!
Shallow embedding of `src/pr-assigner/assign_assignees.js`.

The script is a single-pass orchestration: fetch a pull-request snapshot,
load a user map from a YAML file, compute a candidate pool, randomly select
enough logins to reach two assignees, call the add-assignees API, and post a
chat notification.  We model the external world (PR fetch result, user-map
file contents, success of the two POST calls) as an explicit `World` record,
the environment variables as an `Env` record, `Math.random` as an oracle
`rand : Nat -> Nat` (the index drawn at each step is taken modulo the current
pool length, which is exactly the range of `Math.floor(Math.random()*len)`),
and the observable behaviour of a run as a `Trace` (exit code, number of
times each external call was attempted, payload of the add-assignees call,
notification message, selected logins).
-/

/-- One value of the `users` mapping in the user-map file: `slack_id`,
optional `notify` and `assign` flags (absent fields are `none`; the source
tests `v.assign !== false` and `info.notify === false`). -/
structure UserInfo where
  slack_id : String
  notify : Option Bool
  assign : Option Bool
deriving DecidableEq

/-- The user map: association list from login to `UserInfo` (a JS object has
distinct keys and preserves insertion order, which `Object.entries` reads). -/
abbrev UserMap := List (String × UserInfo)

/-- The pull-request snapshot used by the script: `pr.title`, `pr.html_url`,
`pr.user.login`, `pr.draft`, and the logins of `pr.assignees`. -/
structure PR where
  title : String
  html_url : String
  author : String
  draft : Bool
  assignees : List String
deriving DecidableEq

/-- Environment variables read by the script.  `removedAssignee = ""` models
an unset/empty `REMOVED_ASSIGNEE` (falsy in JS); `slackConfigured` models the
truthiness of `SLACK_WEBHOOK`. -/
structure Env where
  repo : String
  prNumber : String
  eventType : String
  removedAssignee : String
  slackConfigured : Bool
deriving DecidableEq

/-- The external world: result of the PR-details GET, contents of the
user-map file (`.error` = unreadable/missing/unparsable), and whether the
add-assignees POST and the webhook POST succeed when attempted. -/
structure World where
  prFetch : Except Unit PR
  userMapFile : Except Unit UserMap
  assignSucceeds : Bool
  slackSucceeds : Bool

/-- Observable behaviour of one run. -/
structure Trace where
  exitCode : Nat
  prFetches : Nat
  assignCalls : Nat
  slackCalls : Nat
  apiAssignees : Option (List String)
  msg : Option String
  toAdd : List String
deriving DecidableEq

/-- `getUserMap()`: read and parse the user-map file; on any error, log and
return the empty map. -/
def getUserMap (w : World) : UserMap :=
  match w.userMapFile with
  | .ok m => m
  | .error _ => []

/-- `Object.entries(userMap).filter(([_, v]) => v.assign !== false).map(([k]) => k)`. -/
def allUsers (um : UserMap) : List String :=
  (um.filter (fun kv => kv.2.assign != some false)).map Prod.fst

/-- `candidates`: `allUsers` minus the PR author, and for an `unassigned`
event with a truthy `REMOVED_ASSIGNEE` also minus that login. -/
def candidatesOf (um : UserMap) (pr : PR) (ev removed : String) : List String :=
  let base := (allUsers um).filter (fun u => u != pr.author)
  if ev == "unassigned" && removed != "" then
    base.filter (fun u => u != removed)
  else base

/-- `available = candidates.filter(u => !currentAssignees.includes(u))`. -/
def availableOf (candidates currentAssignees : List String) : List String :=
  candidates.filter (fun u => !(currentAssignees.contains u))

/-- `shouldAssign`: `(eventType === "opened" && !pr.draft) ||
eventType === "ready_for_review" || eventType === "unassigned"`. -/
def shouldAssign (ev : String) (pr : PR) : Bool :=
  (ev == "opened" && !pr.draft) || ev == "ready_for_review" || ev == "unassigned"

/-- `needed = 2 - currentAssignees.length` (a JS number, so an integer that
may be negative or zero). -/
def neededOf (pr : PR) : Int :=
  2 - (pr.assignees.length : Int)

/-- The selection loop:
`while (toAdd.length < needed && pool.length > 0) { const idx =
Math.floor(Math.random() * pool.length); toAdd.push(pool.splice(idx, 1)[0]); }`.
`rand step % pool.length` is the index drawn at iteration `step`; as `rand`
ranges over all functions this covers every possible sequence of draws. -/
def selectLoop (rand : Nat → Nat) : Nat → Nat → List String → List String
  | _, 0, _ => []
  | _, _ + 1, [] => []
  | step, n + 1, a :: as =>
      let idx := rand step % (a :: as).length
      (a :: as).get ⟨idx, Nat.mod_lt _ (Nat.succ_pos _)⟩ ::
        selectLoop rand (step + 1) n ((a :: as).eraseIdx idx)

/-- `assignPRsToUsers`: the filter applied to the selected logins before the
POST — `newAssignees.filter(a => !currentAssignees.includes(a))`. -/
def assigneesToAdd (newAssignees : List String) (pr : PR) : List String :=
  newAssignees.filter (fun a => !(pr.assignees.contains a))

/-- `mention` applied to a single login: plain `@login` when the login has no
user-map entry or its entry has `notify === false`, otherwise the Slack
mention `<@slack_id>`. -/
def mentionOne (um : UserMap) (u : String) : String :=
  match um.lookup u with
  | none => "@" ++ u
  | some info =>
      if info.notify == some false then "@" ++ u else "<@" ++ info.slack_id ++ ">"

/-- `mention(users, userMap)`: render each login and join with spaces. -/
def mention (users : List String) (um : UserMap) : String :=
  String.intercalate " " (users.map (mentionOne um))

/-- `prLink` template: `<${prUrl}|${prTitle}>`. -/
def prLink (pr : PR) : String :=
  "<" ++ pr.html_url ++ "|" ++ pr.title ++ ">"

/-- Message for `unassigned` with a single selected login. -/
def msgRemovedSingle (env : Env) (pr : PR) (um : UserMap) (added : List String) : String :=
  "⚠️ Assignee removed from PR #" ++
    (env.prNumber ++ " " ++ prLink pr ++ " in `" ++ env.repo ++ "`. Added " ++
      mention added um ++ " to meet assignment requirements.")

/-- Message for `unassigned` with several selected logins. -/
def msgRemovedMulti (env : Env) (pr : PR) (um : UserMap) (added : List String) : String :=
  "⚠️ Assignees removed from PR #" ++
    (env.prNumber ++ " " ++ prLink pr ++ " in `" ++ env.repo ++ "`. Added " ++
      mention added um ++ " to meet assignment requirements.")

/-- Message for the `opened` / `ready_for_review` events. -/
def msgUpdate (env : Env) (pr : PR) (um : UserMap) (added : List String) : String :=
  "👥 Assignee update for PR #" ++
    (env.prNumber ++ " " ++ prLink pr ++ " in `" ++ env.repo ++ "`: " ++
      mention added um ++ ".")

/-- Message when additions were required but no candidate was available. -/
def noCandidatesMsg (env : Env) (pr : PR) : String :=
  "❗️ Assignees needed for PR #" ++
    (env.prNumber ++ " " ++ prLink pr ++ " in `" ++ env.repo ++
      "` but no available candidates to assign.")

/-- The `msg` composed after a successful add-assignees call:
`null` when nothing was added, otherwise a 3-way choice on the event type and
on `toAdd.length === 1`. -/
def composeMsg (env : Env) (pr : PR) (um : UserMap) (toAdd addedAssignees : List String) :
    Option String :=
  if addedAssignees.length > 0 then
    if env.eventType == "unassigned" && toAdd.length == 1 then
      some (msgRemovedSingle env pr um addedAssignees)
    else if env.eventType == "unassigned" then
      some (msgRemovedMulti env pr um addedAssignees)
    else
      some (msgUpdate env pr um addedAssignees)
  else none

/-- Trace of a run that reached the end of the assignment branch after
selecting `toAdd` but attempted no external POST. -/
def baseTrace (toAdd : List String) : Trace :=
  { exitCode := 0, prFetches := 1, assignCalls := 0, slackCalls := 0,
    apiAssignees := none, msg := none, toAdd := toAdd }

/-- Trace of a run that did not enter (or immediately left) the assignment
branch. -/
def idleTrace : Trace :=
  baseTrace []

/-- Trace after a successful add-assignees POST of `toSend`, before the
notification step. -/
def sentTrace (toSend toAdd : List String) : Trace :=
  { exitCode := 0, prFetches := 1, assignCalls := 1, slackCalls := 0,
    apiAssignees := some toSend, msg := none, toAdd := toAdd }

/-- Trace when the PR-details GET fails: `process.exit(1)` in the first catch. -/
def fetchFailTrace : Trace :=
  { exitCode := 1, prFetches := 1, assignCalls := 0, slackCalls := 0,
    apiAssignees := none, msg := none, toAdd := [] }

/-- Trace when the add-assignees POST fails: `process.exit(1)` in the
`assignPRsToUsers` catch. -/
def assignFailTrace (toSend toAdd : List String) : Trace :=
  { exitCode := 1, prFetches := 1, assignCalls := 1, slackCalls := 0,
    apiAssignees := some toSend, msg := none, toAdd := toAdd }

/-- `notifySlack(msg)`: skip with a warning when `SLACK_WEBHOOK` is unset,
otherwise POST once; a failed POST is `process.exit(1)`. -/
def runNotify (env : Env) (w : World) (t : Trace) (m : String) : Trace :=
  if env.slackConfigured = false then
    { t with msg := some m }
  else if w.slackSucceeds then
    { t with msg := some m, slackCalls := t.slackCalls + 1 }
  else
    { t with msg := some m, slackCalls := t.slackCalls + 1, exitCode := 1 }

/-- The candidate pool already filtered against the current assignees, as
computed inside the `needed > 0` branch. -/
def availableFor (w : World) (env : Env) (pr : PR) : List String :=
  availableOf (candidatesOf (getUserMap w) pr env.eventType env.removedAssignee) pr.assignees

/-- The logins selected by the random loop for this run. -/
def toAddFor (w : World) (env : Env) (rand : Nat → Nat) (pr : PR) : List String :=
  selectLoop rand 0 (neededOf pr).toNat (availableFor w env pr)

/-- `assignPRsToUsers` followed by message composition and `notifySlack`,
entered when `toAdd.length > 0`. -/
def assignAndNotify (w : World) (env : Env) (pr : PR) (toAdd : List String) : Trace :=
  if (assigneesToAdd toAdd pr).length > 0 then
    if w.assignSucceeds then
      match composeMsg env pr (getUserMap w) toAdd (assigneesToAdd toAdd pr) with
      | some m => runNotify env w (sentTrace (assigneesToAdd toAdd pr) toAdd) m
      | none => sentTrace (assigneesToAdd toAdd pr) toAdd
    else assignFailTrace (assigneesToAdd toAdd pr) toAdd
  else baseTrace toAdd

/-- Body of the main IIFE after a successful PR fetch. -/
def runAssignPhase (w : World) (env : Env) (rand : Nat → Nat) (pr : PR) : Trace :=
  if shouldAssign env.eventType pr then
    if neededOf pr > 0 then
      if (toAddFor w env rand pr).length > 0 then
        assignAndNotify w env pr (toAddFor w env rand pr)
      else if neededOf pr > 0 ∧ (availableFor w env pr).length = 0 then
        runNotify env w (baseTrace (toAddFor w env rand pr)) (noCandidatesMsg env pr)
      else baseTrace (toAddFor w env rand pr)
    else idleTrace
  else idleTrace

/-- The whole run. -/
def runMain (w : World) (env : Env) (rand : Nat → Nat) : Trace :=
  match w.prFetch with
  | .error _ => fetchFailTrace
  | .ok pr => runAssignPhase w env rand pr

/-- A user-map entry with both optional flags absent. -/
def egUser (sid : String) : UserInfo :=
  { slack_id := sid, notify := none, assign := none }

/-- A concrete three-user map for witnesses. -/
def egMap : UserMap :=
  [("alice", egUser "S1"), ("bob", egUser "S2"), ("carol", egUser "S3")]

/-- A concrete freshly opened PR authored by alice with no assignees. -/
def egPR : PR :=
  { title := "T", html_url := "U", author := "alice", draft := false, assignees := [] }

/-- A concrete environment for an `opened` event, webhook unset. -/
def egEnv : Env :=
  { repo := "r", prNumber := "1", eventType := "opened", removedAssignee := "",
    slackConfigured := false }

/-- A concrete world where every external call succeeds. -/
def egWorld : World :=
  { prFetch := .ok egPR, userMapFile := .ok egMap, assignSucceeds := true,
    slackSucceeds := true }

/-- A deterministic draw sequence: always take index 0. -/
def egRand : Nat → Nat := fun _ => 0

/-- A world whose user-map file is unreadable. -/
def egWorldBadMap : World :=
  { prFetch := .ok egPR, userMapFile := .error (), assignSucceeds := true,
    slackSucceeds := true }

/-- A PR that still has two assignees after a removal. -/
def egPR2 : PR :=
  { title := "T", html_url := "U", author := "alice", draft := false,
    assignees := ["bob", "carol"] }

/-- An environment for an `unassigned` event with a removed login supplied,
webhook configured. -/
def egEnvUn : Env :=
  { repo := "r", prNumber := "1", eventType := "unassigned",
    removedAssignee := "dave", slackConfigured := true }

/-- The all-success world for the two-assignee PR. -/
def egWorld2 : World :=
  { prFetch := .ok egPR2, userMapFile := .ok egMap, assignSucceeds := true,
    slackSucceeds := true }

/-! ### Lemmas about the selection loop -/

theorem perm_get_cons_eraseIdx {α : Type} (l : List α) (i : Nat) (h : i < l.length) :
    List.Perm l (l.get ⟨i, h⟩ :: l.eraseIdx i) := by
  induction l generalizing i with
  | nil => simp at h
  | cons a as ih =>
      cases i with
      | zero => simp
      | succ j =>
          have hj : j < as.length := Nat.lt_of_succ_lt_succ h
          have step : List.Perm (a :: as) (a :: (as.get ⟨j, hj⟩ :: as.eraseIdx j)) :=
            List.Perm.cons a (ih j hj)
          exact step.trans (List.Perm.swap _ _ _)

theorem selectLoop_subperm (rand : Nat → Nat) (n : Nat) :
    ∀ (step : Nat) (pool : List String),
      List.Subperm (selectLoop rand step n pool) pool := by
  induction n with
  | zero => intro step pool; simp [selectLoop, List.nil_subperm]
  | succ m ih =>
      intro step pool
      cases pool with
      | nil => simp [selectLoop, List.nil_subperm]
      | cons a as =>
          rw [selectLoop]
          have hrec := ih (step + 1) ((a :: as).eraseIdx (rand step % (a :: as).length))
          have hcons := (List.subperm_cons
            ((a :: as).get ⟨rand step % (a :: as).length,
              Nat.mod_lt _ (Nat.succ_pos _)⟩)).2 hrec
          exact hcons.trans
            (perm_get_cons_eraseIdx (a :: as) _ (Nat.mod_lt _ (Nat.succ_pos _))).symm.subperm

theorem selectLoop_subset (rand : Nat → Nat) (step n : Nat) (pool : List String) :
    ∀ x ∈ selectLoop rand step n pool, x ∈ pool := by
  intro x hx
  obtain ⟨l, hp, hs⟩ := selectLoop_subperm rand n step pool
  exact hs.subset (hp.mem_iff.2 hx)

theorem selectLoop_nodup (rand : Nat → Nat) (step n : Nat) (pool : List String)
    (hP : pool.Nodup) : (selectLoop rand step n pool).Nodup := by
  obtain ⟨l, hp, hs⟩ := selectLoop_subperm rand n step pool
  exact hp.nodup (hs.nodup hP)

theorem selectLoop_length (rand : Nat → Nat) (n : Nat) :
    ∀ (step : Nat) (pool : List String),
      (selectLoop rand step n pool).length = min n pool.length := by
  induction n with
  | zero => intro step pool; simp [selectLoop]
  | succ m ih =>
      intro step pool
      cases pool with
      | nil => simp [selectLoop]
      | cons a as =>
          rw [selectLoop]
          have hlt : rand step % (as.length + 1) < as.length + 1 :=
            Nat.mod_lt _ (Nat.succ_pos _)
          have herase : ((a :: as).eraseIdx (rand step % (as.length + 1))).length
              = as.length := by
            rw [List.length_eraseIdx]
            simp only [List.length_cons]
            rw [if_pos hlt]
            omega
          simp only [List.length_cons, ih, herase]
          omega

theorem selectLoop_nil (rand : Nat → Nat) (step n : Nat) :
    selectLoop rand step n [] = [] := by
  cases n <;> rfl

/-! ### Lemmas about association-list lookup -/

theorem mem_of_lookup_eq_some {β : Type} {l : List (String × β)} {k : String} {v : β}
    (h : l.lookup k = some v) : (k, v) ∈ l := by
  induction l with
  | nil => simp [List.lookup] at h
  | cons hd tl ih =>
      rw [List.lookup] at h
      cases hd with
      | mk a b =>
          by_cases hk : k = a
          · subst hk
            simp at h
            subst h
            exact List.mem_cons_self _ _
          · have hbeq : (k == a) = false := by simpa using hk
            rw [hbeq] at h
            exact List.mem_cons_of_mem _ (ih h)

theorem lookup_eq_some_of_mem {β : Type} {l : List (String × β)} {k : String} {v : β}
    (hnd : (l.map Prod.fst).Nodup) (hm : (k, v) ∈ l) : l.lookup k = some v := by
  induction l with
  | nil => simp at hm
  | cons hd tl ih =>
      cases hd with
      | mk a b =>
          rw [List.lookup]
          rcases List.mem_cons.1 hm with heq | htl
          · obtain ⟨h1, h2⟩ := Prod.mk.injEq .. ▸ heq
            subst h1; subst h2
            simp
          · have hnd' : (a :: tl.map Prod.fst).Nodup := by simpa using hnd
            by_cases hk : k = a
            · subst hk
              exfalso
              have hmem : k ∈ tl.map Prod.fst := List.mem_map_of_mem Prod.fst htl
              exact (List.nodup_cons.1 hnd').1 hmem
            · have hbeq : (k == a) = false := by simpa using hk
              rw [hbeq]
              exact ih (List.nodup_cons.1 hnd').2 htl

theorem lookup_eq_none_of_not_mem {β : Type} {l : List (String × β)} {k : String}
    (h : ∀ v, (k, v) ∉ l) : l.lookup k = none := by
  cases hl : l.lookup k with
  | none => rfl
  | some v => exact absurd (mem_of_lookup_eq_some hl) (h v)

/-! ### String-prefix distinctness helper -/

theorem append_ne_of_data_head {a b : String} (x y : String) {c d : Char}
    {ca cb : List Char} (hda : a.data = c :: ca) (hdb : b.data = d :: cb)
    (hcd : c ≠ d) : a ++ x ≠ b ++ y := by
  intro h
  have h2 := congrArg String.data h
  rw [String.data_append, String.data_append, hda, hdb] at h2
  exact hcd (List.cons.injEq .. ▸ h2 |> And.left)

theorem msgRemovedSingle_ne_noCandidatesMsg (env : Env) (pr : PR) (um : UserMap)
    (added : List String) (env' : Env) (pr' : PR) :
    msgRemovedSingle env pr um added ≠ noCandidatesMsg env' pr' :=
  append_ne_of_data_head _ _ rfl rfl (by decide)

theorem msgRemovedMulti_ne_noCandidatesMsg (env : Env) (pr : PR) (um : UserMap)
    (added : List String) (env' : Env) (pr' : PR) :
    msgRemovedMulti env pr um added ≠ noCandidatesMsg env' pr' :=
  append_ne_of_data_head _ _ rfl rfl (by decide)

theorem msgUpdate_ne_noCandidatesMsg (env : Env) (pr : PR) (um : UserMap)
    (added : List String) (env' : Env) (pr' : PR) :
    msgUpdate env pr um added ≠ noCandidatesMsg env' pr' :=
  append_ne_of_data_head _ _ rfl rfl (by decide)

/-! ### Candidate-pool membership lemmas -/

theorem mem_availableOf {u : String} {cs cur : List String}
    (h : u ∈ availableOf cs cur) : u ∈ cs ∧ u ∉ cur := by
  unfold availableOf at h
  have h2 := List.mem_filter.1 h
  refine ⟨h2.1, ?_⟩
  have h3 := h2.2
  simpa using h3

theorem mem_candidatesOf {um : UserMap} {pr : PR} {ev rem : String} {u : String}
    (h : u ∈ candidatesOf um pr ev rem) : u ∈ allUsers um ∧ u ≠ pr.author := by
  unfold candidatesOf at h
  split at h
  · have h2 := List.mem_filter.1 h
    have h3 := List.mem_filter.1 h2.1
    exact ⟨h3.1, by simpa using h3.2⟩
  · have h3 := List.mem_filter.1 h
    exact ⟨h3.1, by simpa using h3.2⟩

theorem mem_allUsers {um : UserMap} {u : String} (h : u ∈ allUsers um) :
    ∃ v, (u, v) ∈ um ∧ v.assign ≠ some false := by
  unfold allUsers at h
  obtain ⟨⟨k, v⟩, hkv, hk⟩ := List.mem_map.1 h
  have hk' : k = u := by simpa using hk
  subst hk'
  have h2 := List.mem_filter.1 hkv
  refine ⟨v, h2.1, ?_⟩
  simpa using h2.2

theorem mem_assigneesToAdd {L : List String} {pr : PR} {u : String}
    (h : u ∈ assigneesToAdd L pr) : u ∈ L ∧ u ∉ pr.assignees := by
  unfold assigneesToAdd at h
  have h2 := List.mem_filter.1 h
  refine ⟨h2.1, ?_⟩
  have h3 := h2.2
  simpa using h3

/-! ### Field lemmas for the notification step -/

theorem runNotify_apiAssignees (env : Env) (w : World) (t : Trace) (m : String) :
    (runNotify env w t m).apiAssignees = t.apiAssignees := by
  unfold runNotify
  split
  · rfl
  · split <;> rfl

theorem runNotify_msg (env : Env) (w : World) (t : Trace) (m : String) :
    (runNotify env w t m).msg = some m := by
  unfold runNotify
  split
  · rfl
  · split <;> rfl

theorem runNotify_assignCalls (env : Env) (w : World) (t : Trace) (m : String) :
    (runNotify env w t m).assignCalls = t.assignCalls := by
  unfold runNotify
  split
  · rfl
  · split <;> rfl

theorem runNotify_toAdd (env : Env) (w : World) (t : Trace) (m : String) :
    (runNotify env w t m).toAdd = t.toAdd := by
  unfold runNotify
  split
  · rfl
  · split <;> rfl

theorem runNotify_prFetches (env : Env) (w : World) (t : Trace) (m : String) :
    (runNotify env w t m).prFetches = t.prFetches := by
  unfold runNotify
  split
  · rfl
  · split <;> rfl

theorem runNotify_slackCalls_le (env : Env) (w : World) (t : Trace) (m : String) :
    (runNotify env w t m).slackCalls ≤ t.slackCalls + 1 := by
  unfold runNotify
  split
  · exact Nat.le_succ _
  · split <;> exact Nat.le_refl _

theorem runNotify_exitCode_of_ok (env : Env) (w : World) (t : Trace) (m : String)
    (h : w.slackSucceeds = true) : (runNotify env w t m).exitCode = t.exitCode := by
  unfold runNotify
  split
  · rfl
  · simp [h]

/-! ### Characterization of the main run -/

theorem runMain_ok (w : World) (env : Env) (rand : Nat → Nat) (pr : PR)
    (hpr : w.prFetch = .ok pr) :
    runMain w env rand = runAssignPhase w env rand pr := by
  unfold runMain
  rw [hpr]

theorem runMain_err (w : World) (env : Env) (rand : Nat → Nat)
    (hpr : w.prFetch = .error ()) :
    runMain w env rand = fetchFailTrace := by
  unfold runMain
  rw [hpr]

theorem runAssignPhase_not_should (w : World) (env : Env) (rand : Nat → Nat) (pr : PR)
    (h : shouldAssign env.eventType pr = false) :
    runAssignPhase w env rand pr = idleTrace := by
  unfold runAssignPhase
  simp [h]

theorem runAssignPhase_no_need (w : World) (env : Env) (rand : Nat → Nat) (pr : PR)
    (h : ¬ neededOf pr > 0) :
    runAssignPhase w env rand pr = idleTrace := by
  unfold runAssignPhase
  split <;> simp [h]

theorem composeMsg_pos (env : Env) (pr : PR) (um : UserMap) (toAdd added : List String)
    (h : 0 < added.length) :
    composeMsg env pr um toAdd added =
      some (if env.eventType == "unassigned" && toAdd.length == 1 then
              msgRemovedSingle env pr um added
            else if env.eventType == "unassigned" then
              msgRemovedMulti env pr um added
            else msgUpdate env pr um added) := by
  unfold composeMsg
  rw [if_pos h]
  split
  · rfl
  · split <;> rfl

theorem runAssignPhase_api_full (w : World) (env : Env) (rand : Nat → Nat) (pr : PR)
    (L : List String) (h : (runAssignPhase w env rand pr).apiAssignees = some L) :
    L = assigneesToAdd (toAddFor w env rand pr) pr ∧ 0 < L.length ∧
      (w.assignSucceeds = true →
        (runAssignPhase w env rand pr).msg =
          composeMsg env pr (getUserMap w) (toAddFor w env rand pr) L) := by
  unfold runAssignPhase assignAndNotify at h ⊢
  split at h
  case isFalse => simp [idleTrace, baseTrace] at h
  case isTrue hs =>
    split at h
    case isFalse => simp [idleTrace, baseTrace] at h
    case isTrue hn =>
      split at h
      case isFalse hta =>
        split at h
        · rw [runNotify_apiAssignees] at h
          simp [baseTrace] at h
        · simp [baseTrace] at h
      case isTrue hta =>
        split at h
        case isFalse hsend => simp [baseTrace] at h
        case isTrue hsend =>
          split at h
          case isFalse hok =>
            simp [assignFailTrace] at h
            subst h
            refine ⟨rfl, hsend, ?_⟩
            intro hcontra
            simp [hcontra] at hok
          case isTrue hok =>
            split at h
            case h_1 m hm =>
              rw [runNotify_apiAssignees] at h
              simp [sentTrace] at h
              subst h
              refine ⟨rfl, hsend, fun _ => ?_⟩
              simp [hs, hn, hta, hsend, ← hok, hm, runNotify_msg]
            case h_2 hm =>
              simp [sentTrace] at h
              subst h
              refine ⟨rfl, hsend, fun _ => ?_⟩
              simp [hs, hn, hta, hsend, ← hok, hm, sentTrace]

theorem runAssignPhase_shape (w : World) (env : Env) (rand : Nat → Nat) (pr : PR) :
    runAssignPhase w env rand pr = idleTrace ∨
    (∃ t, runAssignPhase w env rand pr = baseTrace t) ∨
    (∃ t m, runAssignPhase w env rand pr = runNotify env w (baseTrace t) m) ∨
    (∃ s t m, runAssignPhase w env rand pr = runNotify env w (sentTrace s t) m ∧
      w.assignSucceeds = true) ∨
    (∃ s t, runAssignPhase w env rand pr = sentTrace s t ∧ w.assignSucceeds = true) ∨
    (∃ s t, runAssignPhase w env rand pr = assignFailTrace s t ∧
      w.assignSucceeds = false) := by
  unfold runAssignPhase assignAndNotify
  split
  case isFalse => left; rfl
  case isTrue hs =>
    split
    case isFalse => left; rfl
    case isTrue hn =>
      split
      case isFalse hta =>
        split
        · right; right; left; exact ⟨_, _, rfl⟩
        · right; left; exact ⟨_, rfl⟩
      case isTrue hta =>
        split
        case isFalse hsend => right; left; exact ⟨_, rfl⟩
        case isTrue hsend =>
          split
          case isFalse hok =>
            right; right; right; right; right
            refine ⟨_, _, rfl, ?_⟩
            cases hb : w.assignSucceeds with
            | false => rfl
            | true => exact absurd hb hok
          case isTrue hok =>
            split
            · right; right; right; left
              refine ⟨_, _, _, rfl, ?_⟩
              cases hb : w.assignSucceeds with
              | true => rfl
              | false => rw [hb] at hok; exact absurd hok (by simp)
            · right; right; right; right; left
              refine ⟨_, _, rfl, ?_⟩
              cases hb : w.assignSucceeds with
              | true => rfl
              | false => rw [hb] at hok; exact absurd hok (by simp)

/-! ### Claim theorems -/

/-- C1: for every candidate pool `P`, every required count `n > 0`, and every
sequence of random draws, the selection loop returns exactly `min n |P|`
distinct logins, all drawn from `P`: exactly `n` when `n ≤ |P|` and exactly
`|P|` when `n > |P|`, picked one at a time without replacement. -/
theorem C1_selection_loop (rand : Nat → Nat) (n : Nat) (P : List String)
    (hP : P.Nodup) (_hn : 0 < n) :
    (selectLoop rand 0 n P).length = min n P.length ∧
    (n ≤ P.length → (selectLoop rand 0 n P).length = n) ∧
    (P.length < n → (selectLoop rand 0 n P).length = P.length) ∧
    (selectLoop rand 0 n P).Nodup ∧
    (∀ x ∈ selectLoop rand 0 n P, x ∈ P) := by
  have hlen := selectLoop_length rand n 0 P
  refine ⟨hlen, ?_, ?_, selectLoop_nodup rand 0 n P hP, selectLoop_subset rand 0 n P⟩
  · intro h; omega
  · intro h; omega

/-- Witness for C1 at a concrete pool and count. -/
theorem C1_selection_loop_witness :
    (selectLoop egRand 0 2 ["a", "b", "c"]).length =
        min 2 (["a", "b", "c"] : List String).length ∧
    (2 ≤ (["a", "b", "c"] : List String).length →
      (selectLoop egRand 0 2 ["a", "b", "c"]).length = 2) ∧
    ((["a", "b", "c"] : List String).length < 2 →
      (selectLoop egRand 0 2 ["a", "b", "c"]).length =
        (["a", "b", "c"] : List String).length) ∧
    (selectLoop egRand 0 2 ["a", "b", "c"]).Nodup ∧
    (∀ x ∈ selectLoop egRand 0 2 ["a", "b", "c"],
      x ∈ (["a", "b", "c"] : List String)) :=
  C1_selection_loop egRand 2 ["a", "b", "c"] (by decide) (by decide)

/-- C2: every login actually sent to the add-assignees API lies in the
candidate pool, is not the PR author, is not already a current assignee, and
its user-map entry (if any) does not have `assign == false`. -/
theorem C2_sent_subset (w : World) (env : Env) (rand : Nat → Nat) (pr : PR)
    (hpr : w.prFetch = .ok pr)
    (hnd : ((getUserMap w).map Prod.fst).Nodup)
    (L : List String) (hL : (runMain w env rand).apiAssignees = some L) :
    ∀ u ∈ L,
      u ∈ candidatesOf (getUserMap w) pr env.eventType env.removedAssignee ∧
      u ≠ pr.author ∧
      u ∉ pr.assignees ∧
      ∀ info, (getUserMap w).lookup u = some info → info.assign ≠ some false := by
  rw [runMain_ok w env rand pr hpr] at hL
  obtain ⟨hLeq, _, _⟩ := runAssignPhase_api_full w env rand pr L hL
  intro u hu
  rw [hLeq] at hu
  obtain ⟨hu1, hu2⟩ := mem_assigneesToAdd hu
  have hu3 : u ∈ availableFor w env pr := by
    unfold toAddFor at hu1
    exact selectLoop_subset _ _ _ _ u hu1
  unfold availableFor at hu3
  obtain ⟨hc, _⟩ := mem_availableOf hu3
  obtain ⟨_, hauth⟩ := mem_candidatesOf hc
  refine ⟨hc, hauth, hu2, ?_⟩
  intro info hinfo
  obtain ⟨hall, _⟩ := mem_candidatesOf hc
  obtain ⟨v, hv, hvassign⟩ := mem_allUsers hall
  have hlook := lookup_eq_some_of_mem hnd hv
  rw [hlook] at hinfo
  injection hinfo with heq
  rw [← heq]
  exact hvassign

/-- Witness for C2 on a concrete successful run, at the selected login bob. -/
theorem C2_sent_subset_witness :
    "bob" ∈ candidatesOf (getUserMap egWorld) egPR egEnv.eventType egEnv.removedAssignee ∧
    "bob" ≠ egPR.author ∧
    "bob" ∉ egPR.assignees ∧
    (∀ info, (getUserMap egWorld).lookup "bob" = some info →
      info.assign ≠ some false) :=
  C2_sent_subset egWorld egEnv egRand egPR rfl (by decide) ["bob", "carol"] (by decide)
    "bob" (by decide)

/-- C3: assignment is attempted iff the event is `opened` on a non-draft PR,
or `ready_for_review`, or `unassigned`; otherwise no selection, no
add-assignees call and no chat message occur. -/
theorem C3_event_gating (w : World) (env : Env) (rand : Nat → Nat) (pr : PR)
    (hpr : w.prFetch = .ok pr) :
    (shouldAssign env.eventType pr = true ↔
      ((env.eventType = "opened" ∧ pr.draft = false) ∨
        env.eventType = "ready_for_review" ∨ env.eventType = "unassigned")) ∧
    (shouldAssign env.eventType pr = false →
      (runMain w env rand).toAdd = [] ∧
      (runMain w env rand).assignCalls = 0 ∧
      (runMain w env rand).apiAssignees = none ∧
      (runMain w env rand).msg = none ∧
      (runMain w env rand).slackCalls = 0) := by
  constructor
  · unfold shouldAssign
    simp
    tauto
  · intro h
    rw [runMain_ok w env rand pr hpr,
      runAssignPhase_not_should w env rand pr h]
    simp [idleTrace, baseTrace]

/-- Witness for C3 on a concrete run. -/
theorem C3_event_gating_witness :
    (shouldAssign egEnv.eventType egPR = true ↔
      ((egEnv.eventType = "opened" ∧ egPR.draft = false) ∨
        egEnv.eventType = "ready_for_review" ∨ egEnv.eventType = "unassigned")) ∧
    (shouldAssign egEnv.eventType egPR = false →
      (runMain egWorld egEnv egRand).toAdd = [] ∧
      (runMain egWorld egEnv egRand).assignCalls = 0 ∧
      (runMain egWorld egEnv egRand).apiAssignees = none ∧
      (runMain egWorld egEnv egRand).msg = none ∧
      (runMain egWorld egEnv egRand).slackCalls = 0) :=
  C3_event_gating egWorld egEnv egRand egPR rfl

/-- C4: the required number of additions is `max 0 (2 - current assignee
count)`, and with at least two current assignees the run selects nothing,
calls no API, and exits 0 (a logged no-op, not an error). -/
theorem C4_needed_additions (w : World) (env : Env) (rand : Nat → Nat) (pr : PR)
    (hpr : w.prFetch = .ok pr) :
    (((neededOf pr).toNat : Int) = max 0 (2 - (pr.assignees.length : Int))) ∧
    (2 ≤ pr.assignees.length →
      (runMain w env rand).toAdd = [] ∧
      (runMain w env rand).assignCalls = 0 ∧
      (runMain w env rand).apiAssignees = none ∧
      (runMain w env rand).slackCalls = 0 ∧
      (runMain w env rand).exitCode = 0) := by
  constructor
  · unfold neededOf
    omega
  · intro h2
    have hn : ¬ neededOf pr > 0 := by
      unfold neededOf
      omega
    rw [runMain_ok w env rand pr hpr, runAssignPhase_no_need w env rand pr hn]
    simp [idleTrace, baseTrace]

/-- Witness for C4 on an `unassigned` event with two remaining assignees. -/
theorem C4_needed_additions_witness :
    (((neededOf egPR2).toNat : Int) = max 0 (2 - (egPR2.assignees.length : Int))) ∧
    (2 ≤ egPR2.assignees.length →
      (runMain egWorld2 egEnvUn egRand).toAdd = [] ∧
      (runMain egWorld2 egEnvUn egRand).assignCalls = 0 ∧
      (runMain egWorld2 egEnvUn egRand).apiAssignees = none ∧
      (runMain egWorld2 egEnvUn egRand).slackCalls = 0 ∧
      (runMain egWorld2 egEnvUn egRand).exitCode = 0) :=
  C4_needed_additions egWorld2 egEnvUn egRand egPR2 rfl

/-- C5: on an `unassigned` event with a supplied (non-empty) removed login,
that login is excluded from the candidate pool; for any other event type the
removed-assignee value has no effect on the pool. -/
theorem C5_removed_exclusion (um : UserMap) (pr : PR) (rem : String) :
    (rem ≠ "" → rem ∉ candidatesOf um pr "unassigned" rem) ∧
    (∀ ev, ev ≠ "unassigned" → ∀ rem',
      candidatesOf um pr ev rem = candidatesOf um pr ev rem') := by
  constructor
  · intro hne hmem
    have hb : (rem != "") = true := by simpa using hne
    unfold candidatesOf at hmem
    simp [hb] at hmem
  · intro ev hev rem'
    have hb : (ev == "unassigned") = false := by simpa using hev
    unfold candidatesOf
    simp [hb]

/-- Witness for C5 at a concrete pool and login. -/
theorem C5_removed_exclusion_witness :
    ("bob" ≠ "" → "bob" ∉ candidatesOf egMap egPR "unassigned" "bob") ∧
    (∀ ev, ev ≠ "unassigned" → ∀ rem',
      candidatesOf egMap egPR ev "bob" = candidatesOf egMap egPR ev rem') :=
  C5_removed_exclusion egMap egPR "bob"

/-- C6: a failed PR fetch, add-assignees POST or webhook POST terminates the
run with exit status 1 and nothing after the failing call runs; no external
call is ever attempted twice; if the PR fetch succeeds and both POSTs succeed
whenever attempted, the run exits 0. -/
theorem C6_failure_fatality (w : World) (env : Env) (rand : Nat → Nat) :
    (runMain w env rand).prFetches ≤ 1 ∧
    (runMain w env rand).assignCalls ≤ 1 ∧
    (runMain w env rand).slackCalls ≤ 1 ∧
    (w.prFetch = .error () →
      (runMain w env rand).exitCode = 1 ∧
      (runMain w env rand).assignCalls = 0 ∧
      (runMain w env rand).slackCalls = 0) ∧
    (w.assignSucceeds = false → 0 < (runMain w env rand).assignCalls →
      (runMain w env rand).exitCode = 1 ∧ (runMain w env rand).slackCalls = 0) ∧
    (w.slackSucceeds = false → 0 < (runMain w env rand).slackCalls →
      (runMain w env rand).exitCode = 1) ∧
    (∀ pr, w.prFetch = .ok pr → w.assignSucceeds = true → w.slackSucceeds = true →
      (runMain w env rand).exitCode = 0) := by
  cases hw : w.prFetch with
  | error e =>
      cases e
      rw [runMain_err w env rand hw]
      simp [fetchFailTrace, baseTrace, hw]
  | ok pr =>
      rw [runMain_ok w env rand pr hw]
      rcases runAssignPhase_shape w env rand pr with
        hsh | ⟨t, hsh⟩ | ⟨t, m, hsh⟩ | ⟨s, t, m, hsh, hok⟩ | ⟨s, t, hsh, hok⟩ |
          ⟨s, t, hsh, hfail⟩ <;>
        rw [hsh] <;>
        simp only [runNotify, idleTrace, baseTrace, sentTrace, assignFailTrace] <;>
        (try split_ifs) <;>
        simp_all

/-- Witness for C6 on a concrete all-success run. -/
theorem C6_failure_fatality_witness :
    (runMain egWorld egEnv egRand).prFetches ≤ 1 ∧
    (runMain egWorld egEnv egRand).assignCalls ≤ 1 ∧
    (runMain egWorld egEnv egRand).slackCalls ≤ 1 ∧
    (egWorld.prFetch = .error () →
      (runMain egWorld egEnv egRand).exitCode = 1 ∧
      (runMain egWorld egEnv egRand).assignCalls = 0 ∧
      (runMain egWorld egEnv egRand).slackCalls = 0) ∧
    (egWorld.assignSucceeds = false → 0 < (runMain egWorld egEnv egRand).assignCalls →
      (runMain egWorld egEnv egRand).exitCode = 1 ∧
      (runMain egWorld egEnv egRand).slackCalls = 0) ∧
    (egWorld.slackSucceeds = false → 0 < (runMain egWorld egEnv egRand).slackCalls →
      (runMain egWorld egEnv egRand).exitCode = 1) ∧
    (∀ pr, egWorld.prFetch = .ok pr → egWorld.assignSucceeds = true →
      egWorld.slackSucceeds = true → (runMain egWorld egEnv egRand).exitCode = 0) :=
  C6_failure_fatality egWorld egEnv egRand

/-- C7: an unreadable user-map file is logged and degrades to the empty map;
the candidate pool is then empty, no add-assignees call happens, and the run
does not exit non-zero because of the configuration error. -/
theorem C7_config_degrade (w : World) (env : Env) (rand : Nat → Nat) (pr : PR)
    (hcfg : w.userMapFile = .error ()) (hpr : w.prFetch = .ok pr) :
    getUserMap w = [] ∧
    candidatesOf (getUserMap w) pr env.eventType env.removedAssignee = [] ∧
    (runMain w env rand).assignCalls = 0 ∧
    (w.slackSucceeds = true → (runMain w env rand).exitCode = 0) := by
  have hum : getUserMap w = [] := by
    unfold getUserMap
    rw [hcfg]
  have hcand : candidatesOf (getUserMap w) pr env.eventType env.removedAssignee = [] := by
    rw [hum]
    unfold candidatesOf allUsers
    simp
  have hav : availableFor w env pr = [] := by
    unfold availableFor availableOf
    rw [hcand]
    rfl
  have hta : toAddFor w env rand pr = [] := by
    unfold toAddFor
    rw [hav, selectLoop_nil]
  refine ⟨hum, hcand, ?_, ?_⟩
  · rw [runMain_ok w env rand pr hpr]
    unfold runAssignPhase
    split
    case isFalse => simp [idleTrace, baseTrace]
    case isTrue hs =>
      split
      case isFalse => simp [idleTrace, baseTrace]
      case isTrue hn =>
        rw [hta, if_neg (by simp), if_pos (And.intro hn (by rw [hav]; rfl)),
          runNotify_assignCalls]
        rfl
  · intro hok
    rw [runMain_ok w env rand pr hpr]
    unfold runAssignPhase
    split
    case isFalse => simp [idleTrace, baseTrace]
    case isTrue hs =>
      split
      case isFalse => simp [idleTrace, baseTrace]
      case isTrue hn =>
        rw [hta, if_neg (by simp), if_pos (And.intro hn (by rw [hav]; rfl)),
          runNotify_exitCode_of_ok env w _ _ hok]
        rfl

/-- Witness for C7 on a concrete world with an unreadable user map. -/
theorem C7_config_degrade_witness :
    getUserMap egWorldBadMap = [] ∧
    candidatesOf (getUserMap egWorldBadMap) egPR egEnv.eventType egEnv.removedAssignee = [] ∧
    (runMain egWorldBadMap egEnv egRand).assignCalls = 0 ∧
    (egWorldBadMap.slackSucceeds = true →
      (runMain egWorldBadMap egEnv egRand).exitCode = 0) :=
  C7_config_degrade egWorldBadMap egEnv egRand egPR rfl rfl

/-- C8: when assignment is attempted, additions are required and the filtered
pool is empty, the run emits the distinct "no candidates available" message
(informationally, exit 0 when the webhook call succeeds and without any
add-assignees call); when logins were selected and added, the message differs
from the no-candidates one and its wording depends on the event type and on
whether one or more logins were selected. -/
theorem C8_message_composition (w : World) (env : Env) (rand : Nat → Nat) (pr : PR)
    (hpr : w.prFetch = .ok pr) :
    (shouldAssign env.eventType pr = true → neededOf pr > 0 →
      availableFor w env pr = [] →
      (runMain w env rand).msg = some (noCandidatesMsg env pr) ∧
      (runMain w env rand).assignCalls = 0 ∧
      (w.slackSucceeds = true → (runMain w env rand).exitCode = 0)) ∧
    (w.assignSucceeds = true →
      ∀ L, (runMain w env rand).apiAssignees = some L →
        ∃ m, (runMain w env rand).msg = some m ∧
          m ≠ noCandidatesMsg env pr ∧
          m = (if env.eventType == "unassigned" && (toAddFor w env rand pr).length == 1
               then msgRemovedSingle env pr (getUserMap w) L
               else if env.eventType == "unassigned"
               then msgRemovedMulti env pr (getUserMap w) L
               else msgUpdate env pr (getUserMap w) L)) := by
  constructor
  · intro hs hn hav
    have hta : toAddFor w env rand pr = [] := by
      unfold toAddFor
      rw [hav, selectLoop_nil]
    rw [runMain_ok w env rand pr hpr]
    unfold runAssignPhase
    rw [if_pos hs, if_pos hn, hta, if_neg (by simp),
      if_pos (And.intro hn (by rw [hav]; rfl))]
    refine ⟨runNotify_msg _ _ _ _, ?_, ?_⟩
    · rw [runNotify_assignCalls]
      rfl
    · intro hok
      rw [runNotify_exitCode_of_ok env w _ _ hok]
      rfl
  · intro hok L hL
    rw [runMain_ok w env rand pr hpr] at hL ⊢
    obtain ⟨hLeq, hpos, hmsg⟩ := runAssignPhase_api_full w env rand pr L hL
    have hcm := composeMsg_pos env pr (getUserMap w) (toAddFor w env rand pr) L hpos
    refine ⟨_, ?_, ?_, rfl⟩
    · rw [hmsg hok, hcm]
    · split
      · exact msgRemovedSingle_ne_noCandidatesMsg env pr (getUserMap w) L env pr
      · split
        · exact msgRemovedMulti_ne_noCandidatesMsg env pr (getUserMap w) L env pr
        · exact msgUpdate_ne_noCandidatesMsg env pr (getUserMap w) L env pr

/-- Witness for C8 on a concrete successful run. -/
theorem C8_message_composition_witness :
    (shouldAssign egEnv.eventType egPR = true → neededOf egPR > 0 →
      availableFor egWorld egEnv egPR = [] →
      (runMain egWorld egEnv egRand).msg = some (noCandidatesMsg egEnv egPR) ∧
      (runMain egWorld egEnv egRand).assignCalls = 0 ∧
      (egWorld.slackSucceeds = true → (runMain egWorld egEnv egRand).exitCode = 0)) ∧
    (egWorld.assignSucceeds = true →
      ∀ L, (runMain egWorld egEnv egRand).apiAssignees = some L →
        ∃ m, (runMain egWorld egEnv egRand).msg = some m ∧
          m ≠ noCandidatesMsg egEnv egPR ∧
          m = (if egEnv.eventType == "unassigned" &&
                  (toAddFor egWorld egEnv egRand egPR).length == 1
               then msgRemovedSingle egEnv egPR (getUserMap egWorld) L
               else if egEnv.eventType == "unassigned"
               then msgRemovedMulti egEnv egPR (getUserMap egWorld) L
               else msgUpdate egEnv egPR (getUserMap egWorld) L)) :=
  C8_message_composition egWorld egEnv egRand egPR rfl

/-- C9: a webhook POST happens only when a message was produced and the
webhook URL is configured; with a message but no configured webhook the
notification is skipped and the run exits 0. -/
theorem C9_webhook_conditional (w : World) (env : Env) (rand : Nat → Nat) :
    (0 < (runMain w env rand).slackCalls →
      (runMain w env rand).msg.isSome = true ∧ env.slackConfigured = true) ∧
    ((runMain w env rand).msg.isSome = true → env.slackConfigured = false →
      (runMain w env rand).slackCalls = 0 ∧ (runMain w env rand).exitCode = 0) := by
  cases hw : w.prFetch with
  | error e =>
      cases e
      rw [runMain_err w env rand hw]
      simp [fetchFailTrace, baseTrace]
  | ok pr =>
      rw [runMain_ok w env rand pr hw]
      rcases runAssignPhase_shape w env rand pr with
        hsh | ⟨t, hsh⟩ | ⟨t, m, hsh⟩ | ⟨s, t, m, hsh, hok⟩ | ⟨s, t, hsh, hok⟩ |
          ⟨s, t, hsh, hfail⟩ <;>
        rw [hsh] <;>
        simp only [runNotify, idleTrace, baseTrace, sentTrace, assignFailTrace] <;>
        (try split_ifs) <;>
        simp_all

/-- Witness for C9 on a concrete run with no webhook configured. -/
theorem C9_webhook_conditional_witness :
    (0 < (runMain egWorld egEnv egRand).slackCalls →
      (runMain egWorld egEnv egRand).msg.isSome = true ∧
      egEnv.slackConfigured = true) ∧
    ((runMain egWorld egEnv egRand).msg.isSome = true →
      egEnv.slackConfigured = false →
      (runMain egWorld egEnv egRand).slackCalls = 0 ∧
      (runMain egWorld egEnv egRand).exitCode = 0) :=
  C9_webhook_conditional egWorld egEnv egRand

/-- C10: a login is rendered as the chat mention of its `slack_id` exactly
when it has a user-map entry whose `notify` field is not `false`; a login
with no entry, or whose entry has `notify == false`, is rendered as plain
text `"@login"` (never equal to a mention rendering). -/
theorem C10_mention_rendering (um : UserMap) (u : String)
    (hnd : (um.map Prod.fst).Nodup) :
    (∀ info, (u, info) ∈ um → info.notify ≠ some false →
      mentionOne um u = "<@" ++ info.slack_id ++ ">") ∧
    (∀ info, (u, info) ∈ um → info.notify = some false →
      mentionOne um u = "@" ++ u) ∧
    ((∀ info, (u, info) ∉ um) → mentionOne um u = "@" ++ u) ∧
    (∀ sid : String, "<@" ++ (sid ++ ">") ≠ "@" ++ u) := by
  refine ⟨?_, ?_, ?_, ?_⟩
  · intro info hmem hnotify
    have hlook := lookup_eq_some_of_mem hnd hmem
    unfold mentionOne
    rw [hlook]
    have hb : (info.notify == some false) = false := by simpa using hnotify
    simp [hb]
  · intro info hmem hnotify
    have hlook := lookup_eq_some_of_mem hnd hmem
    unfold mentionOne
    rw [hlook]
    simp [hnotify]
  · intro hnone
    have hlook := lookup_eq_none_of_not_mem hnone
    unfold mentionOne
    rw [hlook]
  · intro sid
    exact append_ne_of_data_head _ _ rfl rfl (by decide)

/-- Witness for C10 on the concrete map. -/
theorem C10_mention_rendering_witness :
    (∀ info, ("bob", info) ∈ egMap → info.notify ≠ some false →
      mentionOne egMap "bob" = "<@" ++ info.slack_id ++ ">") ∧
    (∀ info, ("bob", info) ∈ egMap → info.notify = some false →
      mentionOne egMap "bob" = "@" ++ "bob") ∧
    ((∀ info, ("bob", info) ∉ egMap) → mentionOne egMap "bob" = "@" ++ "bob") ∧
    (∀ sid : String, "<@" ++ (sid ++ ">") ≠ "@" ++ "bob") :=
  C10_mention_rendering egMap "bob" (by decide)
